import Mathlib

/-!
A shallow embedding of the PostgreSQL SQL generator of this repository
(`src/sqlgen/postgres/to_sql.cpp`), together with proofs about the SQL
text it produces.

The statement tree (`dynamic::Statement` and its node types) and the
small string utilities (`internal::strings`) live in headers that are
not part of `src/`; those are modelled from the specification's data
model section and are marked as such.  Every rendering function below
is a direct translation of the corresponding function in
`to_sql.cpp`, keeping its name and its exact output format.

C++ `std::string` is modelled by `String`, `std::optional` by
`Option`, `std::vector` by `List`, and `std::to_string` on integers by
`Nat.repr` / `Int.repr` (plain decimal text).
-/

namespace Pg

/-! ## String utilities -/

/-- Source `wrap_in_quotes`: surround a name with double quotes. -/
def wrap_in_quotes (name : String) : String := "\"" ++ name ++ "\""

/-- Source `wrap_in_single_quotes`: surround a name with single quotes. -/
def wrap_in_single_quotes (name : String) : String := "'" ++ name ++ "'"

/-- Modelled from the spec: `internal::strings::join` (join-with-separator),
whose source is not under `src/`.  Concatenates the given strings with the
separator between consecutive elements. -/
def join (sep : String) : List String → String
  | [] => ""
  | [s] => s
  | s :: s2 :: rest => s ++ sep ++ join sep (s2 :: rest)

/-- Character-list worker for `replace_all_char`. -/
def replaceChars (c : Char) (r : List Char) : List Char → List Char
  | [] => []
  | d :: ds => (if d = c then r else [d]) ++ replaceChars c r ds

/-- Modelled from the spec: `internal::strings::replace_all` (whose source is
not under `src/`), specialised to a single-character pattern, which covers
both uses in `to_sql.cpp` (the pattern is always `"'"` or `"_"`).  Every
occurrence of the pattern character is replaced by the replacement string. -/
def replace_all_char (s : String) (c : Char) (r : String) : String :=
  ⟨replaceChars c r.data s.data⟩

/-- Source `escape_single_quote`: `replace_all(str, "'", "''")`. -/
def escape_single_quote (s : String) : String :=
  replace_all_char s (Char.ofNat 39) "''"

/-- Modelled from the spec: `internal::strings::to_upper` (case conversion),
whose source is not under `src/`. -/
def to_upper (s : String) : String := ⟨s.data.map Char.toUpper⟩

/-! ## Data model

Modelled from the spec: the `dynamic` statement-tree headers are not under
`src/`; the shapes below follow the spec's data-model table and the way the
fields are consumed in `to_sql.cpp`. -/

/-- Column constraints (`dynamic::types::Properties`). -/
structure Properties where
  nullable : Bool
  unique : Bool
  primary : Bool
  auto_incr : Bool
  foreign_key_reference : Option (String × String)
  deriving Repr, DecidableEq

/-- A column's declared type (`dynamic::Type`); each variant carries its
`Properties`, as each `dynamic::types` struct does. -/
inductive Typ where
  | boolean (properties : Properties)
  | int8 (properties : Properties)
  | int16 (properties : Properties)
  | int32 (properties : Properties)
  | int64 (properties : Properties)
  | uint8 (properties : Properties)
  | uint16 (properties : Properties)
  | uint32 (properties : Properties)
  | uint64 (properties : Properties)
  | float32 (properties : Properties)
  | float64 (properties : Properties)
  | text (properties : Properties)
  | varchar (length : Nat) (properties : Properties)
  | json (properties : Properties)
  | date (properties : Properties)
  | timestamp (properties : Properties)
  | timestampWithTZ (properties : Properties)
  | enum (name : String) (values : List String) (properties : Properties)
  | dynamic (type_name : String) (properties : Properties)
  | unknown (properties : Properties)
  deriving Repr, DecidableEq

/-- The `_t.properties` member access used through `visit` in the source. -/
def Typ.properties : Typ → Properties
  | .boolean p => p
  | .int8 p => p
  | .int16 p => p
  | .int32 p => p
  | .int64 p => p
  | .uint8 p => p
  | .uint16 p => p
  | .uint32 p => p
  | .uint64 p => p
  | .float32 p => p
  | .float64 p => p
  | .text p => p
  | .varchar _ p => p
  | .json p => p
  | .date p => p
  | .timestamp p => p
  | .timestampWithTZ p => p
  | .enum _ _ p => p
  | .dynamic _ p => p
  | .unknown p => p

/-- Whether a `Typ` is the `Enum` alternative. -/
def Typ.isEnum : Typ → Bool
  | .enum _ _ _ => true
  | _ => false

/-- A column reference (`dynamic::Column`): name, optional alias, declared
type.  The alias is consumed by `column_or_value_to_sql`, the type by
`column_to_sql_definition`. -/
structure Column where
  name : String
  alias_ : Option String
  type : Typ
  deriving Repr, DecidableEq

/-- A duration literal (`dynamic::Duration{val, unit}`); the unit is kept as
the string `rfl::enum_to_string` would produce for it. -/
structure Duration where
  val : Int
  unit : String
  deriving Repr, DecidableEq

/-- A literal value (`dynamic::Value`).  The spec's numeric alternatives
(`Int*`, `UInt*`, `Float*`, `Bool`) all render via plain decimal text
(`std::to_string`), so they are collapsed into the single integer-valued
case `num`. -/
inductive Value where
  | str (val : String)
  | num (val : Int)
  | duration (d : Duration)
  | timestamp (seconds_since_unix : Int)
  deriving Repr, DecidableEq

/-- Column reference or literal (`dynamic::ColumnOrValue`). -/
inductive ColumnOrValue where
  | col (c : Column)
  | val (v : Value)
  deriving Repr, DecidableEq

/-- A qualified table name (`dynamic::Table`). -/
structure Table where
  schema : Option String
  name : String
  deriving Repr, DecidableEq

/-! ## Type and value renderers -/

/-- Source `type_to_sql`: one case per `dynamic::Type` alternative. -/
def type_to_sql : Typ → String
  | .boolean _ => "BOOLEAN"
  | .int8 _ => "SMALLINT"
  | .int16 _ => "SMALLINT"
  | .int32 _ => "INTEGER"
  | .int64 _ => "BIGINT"
  | .uint8 _ => "SMALLINT"
  | .uint16 _ => "SMALLINT"
  | .uint32 _ => "INTEGER"
  | .uint64 _ => "BIGINT"
  | .float32 _ => "NUMERIC"
  | .float64 _ => "NUMERIC"
  | .text _ => "TEXT"
  | .varchar len _ => "VARCHAR(" ++ Nat.repr len ++ ")"
  | .json _ => "JSONB"
  | .date _ => "DATE"
  | .timestamp _ => "TIMESTAMP"
  | .timestampWithTZ _ => "TIMESTAMP WITH TIME ZONE"
  | .enum name _ _ => name
  | .dynamic type_name _ => type_name
  | .unknown _ => "TEXT"

/-- Source `column_or_value_to_sql`: a column renders as a double-quoted
identifier (alias-prefixed when an alias is present); a value renders via
the `handle_value` lambda of the source. -/
def column_or_value_to_sql : ColumnOrValue → String
  | .col c =>
    match c.alias_ with
    | some a => a ++ "." ++ wrap_in_quotes c.name
    | none => wrap_in_quotes c.name
  | .val (.str s) => "'" ++ escape_single_quote s ++ "'"
  | .val (.num n) => Int.repr n
  | .val (.duration d) => "INTERVAL '" ++ Int.repr d.val ++ " " ++ d.unit ++ "'"
  | .val (.timestamp s) => "to_timestamp(" ++ Int.repr s ++ ")"

/-- Source `properties_to_sql`: constraint suffix of a column definition. -/
def properties_to_sql (p : Properties) : String :=
  ((if p.auto_incr then " GENERATED ALWAYS AS IDENTITY" else "") ++
    (if p.nullable then "" else " NOT NULL") ++
    (if p.unique then " UNIQUE" else "")) ++
  (match p.foreign_key_reference with
   | none => ""
   | some ref =>
     " REFERENCES " ++ wrap_in_quotes ref.1 ++ "(" ++ wrap_in_quotes ref.2 ++ ")")

/-- Source `column_to_sql_definition`. -/
def column_to_sql_definition (c : Column) : String :=
  wrap_in_quotes c.name ++ " " ++ type_to_sql c.type ++
    properties_to_sql c.type.properties

/-! ## Expression model -/

mutual
/-- A scalar expression node (`dynamic::Operation`), one constructor per
alternative handled in `operation_to_sql`. -/
inductive Operation where
  | abs (op1 : Operation)
  | agg (a : Aggregation)
  | cast (op1 : Operation) (target_type : Typ)
  | coalesce (ops : List Operation)
  | ceil (op1 : Operation)
  | column (c : Column)
  | concat (ops : List Operation)
  | cos (op1 : Operation)
  | datePlusDuration (date : Operation) (durations : List Duration)
  | day (op1 : Operation)
  | daysBetween (op1 : Operation) (op2 : Operation)
  | divides (op1 : Operation) (op2 : Operation)
  | exp (op1 : Operation)
  | floor (op1 : Operation)
  | hour (op1 : Operation)
  | length (op1 : Operation)
  | ln (op1 : Operation)
  | log2 (op1 : Operation)
  | lower (op1 : Operation)
  | ltrim (op1 : Operation) (op2 : Operation)
  | minus (op1 : Operation) (op2 : Operation)
  | minute (op1 : Operation)
  | mod (op1 : Operation) (op2 : Operation)
  | month (op1 : Operation)
  | multiplies (op1 : Operation) (op2 : Operation)
  | plus (op1 : Operation) (op2 : Operation)
  | replace (op1 : Operation) (op2 : Operation) (op3 : Operation)
  | round (op1 : Operation) (op2 : Operation)
  | rtrim (op1 : Operation) (op2 : Operation)
  | second (op1 : Operation)
  | sin (op1 : Operation)
  | sqrt (op1 : Operation)
  | tan (op1 : Operation)
  | trim (op1 : Operation) (op2 : Operation)
  | unixepoch (op1 : Operation)
  | upper (op1 : Operation)
  | value (v : Value)
  | weekday (op1 : Operation)
  | year (op1 : Operation)

/-- An aggregation node (`dynamic::Aggregation`). -/
inductive Aggregation where
  | avg (val : Operation)
  | count (val : Option ColumnOrValue) (distinct : Bool)
  | max (val : Operation)
  | min (val : Operation)
  | sum (val : Operation)
end

/-- A boolean expression node (`dynamic::Condition`). -/
inductive Condition where
  | and (cond1 : Condition) (cond2 : Condition)
  | equal (op1 : Operation) (op2 : Operation)
  | greaterEqual (op1 : Operation) (op2 : Operation)
  | greaterThan (op1 : Operation) (op2 : Operation)
  | in_ (op : Operation) (patterns : List ColumnOrValue)
  | isNull (op : Operation)
  | isNotNull (op : Operation)
  | lesserEqual (op1 : Operation) (op2 : Operation)
  | lesserThan (op1 : Operation) (op2 : Operation)
  | like (op : Operation) (pattern : ColumnOrValue)
  | not (cond : Condition)
  | notEqual (op1 : Operation) (op2 : Operation)
  | notLike (op : Operation) (pattern : ColumnOrValue)
  | notIn (op : Operation) (patterns : List ColumnOrValue)
  | or (cond1 : Condition) (cond2 : Condition)

/-! ## Expression renderers -/

mutual
/-- Source `operation_to_sql`: recursive descent over the operation tree. -/
def operation_to_sql : Operation → String
  | .abs op1 => "abs(" ++ operation_to_sql op1 ++ ")"
  | .agg a => aggregation_to_sql a
  | .cast op1 target_type =>
      "cast(" ++ operation_to_sql op1 ++ " as " ++ type_to_sql target_type ++ ")"
  | .coalesce ops => "coalesce(" ++ join ", " (operations_to_sql ops) ++ ")"
  | .ceil op1 => "ceil(" ++ operation_to_sql op1 ++ ")"
  | .column c => column_or_value_to_sql (.col c)
  | .concat ops => "(" ++ join " || " (operations_to_sql ops) ++ ")"
  | .cos op1 => "cos(" ++ operation_to_sql op1 ++ ")"
  | .datePlusDuration date durations =>
      operation_to_sql date ++ " + " ++
        join " + " (durations.map fun d => column_or_value_to_sql (.val (.duration d)))
  | .day op1 => "extract(DAY from " ++ operation_to_sql op1 ++ ")"
  | .daysBetween op1 op2 =>
      "cast(" ++ operation_to_sql op2 ++ " as DATE) - cast(" ++
        operation_to_sql op1 ++ " as DATE)"
  | .divides op1 op2 =>
      "(" ++ operation_to_sql op1 ++ ") / (" ++ operation_to_sql op2 ++ ")"
  | .exp op1 => "exp(" ++ operation_to_sql op1 ++ ")"
  | .floor op1 => "floor(" ++ operation_to_sql op1 ++ ")"
  | .hour op1 => "extract(HOUR from " ++ operation_to_sql op1 ++ ")"
  | .length op1 => "length(" ++ operation_to_sql op1 ++ ")"
  | .ln op1 => "ln(" ++ operation_to_sql op1 ++ ")"
  | .log2 op1 => "log(2.0, " ++ operation_to_sql op1 ++ ")"
  | .lower op1 => "lower(" ++ operation_to_sql op1 ++ ")"
  | .ltrim op1 op2 =>
      "ltrim(" ++ operation_to_sql op1 ++ ", " ++ operation_to_sql op2 ++ ")"
  | .minus op1 op2 =>
      "(" ++ operation_to_sql op1 ++ ") - (" ++ operation_to_sql op2 ++ ")"
  | .minute op1 => "extract(MINUTE from " ++ operation_to_sql op1 ++ ")"
  | .mod op1 op2 =>
      "mod(" ++ operation_to_sql op1 ++ ", " ++ operation_to_sql op2 ++ ")"
  | .month op1 => "extract(MONTH from " ++ operation_to_sql op1 ++ ")"
  | .multiplies op1 op2 =>
      "(" ++ operation_to_sql op1 ++ ") * (" ++ operation_to_sql op2 ++ ")"
  | .plus op1 op2 =>
      "(" ++ operation_to_sql op1 ++ ") + (" ++ operation_to_sql op2 ++ ")"
  | .replace op1 op2 op3 =>
      "replace(" ++ operation_to_sql op1 ++ ", " ++ operation_to_sql op2 ++
        ", " ++ operation_to_sql op3 ++ ")"
  | .round op1 op2 =>
      "round(" ++ operation_to_sql op1 ++ ", " ++ operation_to_sql op2 ++ ")"
  | .rtrim op1 op2 =>
      "rtrim(" ++ operation_to_sql op1 ++ ", " ++ operation_to_sql op2 ++ ")"
  | .second op1 => "extract(SECOND from " ++ operation_to_sql op1 ++ ")"
  | .sin op1 => "sin(" ++ operation_to_sql op1 ++ ")"
  | .sqrt op1 => "sqrt(" ++ operation_to_sql op1 ++ ")"
  | .tan op1 => "tan(" ++ operation_to_sql op1 ++ ")"
  | .trim op1 op2 =>
      "trim(" ++ operation_to_sql op1 ++ ", " ++ operation_to_sql op2 ++ ")"
  | .unixepoch op1 => "extract(EPOCH FROM " ++ operation_to_sql op1 ++ ")"
  | .upper op1 => "upper(" ++ operation_to_sql op1 ++ ")"
  | .value v => column_or_value_to_sql (.val v)
  | .weekday op1 => "extract(DOW from " ++ operation_to_sql op1 ++ ")"
  | .year op1 => "extract(YEAR from " ++ operation_to_sql op1 ++ ")"

/-- Renders each operation of a list (the `transform(operation_to_sql)`
pipelines of the source). -/
def operations_to_sql : List Operation → List String
  | [] => []
  | op :: ops => operation_to_sql op :: operations_to_sql ops

/-- Source `aggregation_to_sql`. -/
def aggregation_to_sql : Aggregation → String
  | .avg val => "AVG(" ++ operation_to_sql val ++ ")"
  | .count val distinct =>
      "COUNT(" ++
        (match val, distinct with
         | some c, true => "DISTINCT " ++ column_or_value_to_sql c
         | some c, false => column_or_value_to_sql c
         | none, _ => "*") ++ ")"
  | .max val => "MAX(" ++ operation_to_sql val ++ ")"
  | .min val => "MIN(" ++ operation_to_sql val ++ ")"
  | .sum val => "SUM(" ++ operation_to_sql val ++ ")"
end

/-- Source `condition_to_sql` / `condition_to_sql_impl`: one case per
`dynamic::Condition` alternative. -/
def condition_to_sql : Condition → String
  | .and cond1 cond2 =>
      "(" ++ condition_to_sql cond1 ++ ") AND (" ++ condition_to_sql cond2 ++ ")"
  | .equal op1 op2 => operation_to_sql op1 ++ " = " ++ operation_to_sql op2
  | .greaterEqual op1 op2 => operation_to_sql op1 ++ " >= " ++ operation_to_sql op2
  | .greaterThan op1 op2 => operation_to_sql op1 ++ " > " ++ operation_to_sql op2
  | .in_ op patterns =>
      operation_to_sql op ++ " IN (" ++
        join ", " (patterns.map column_or_value_to_sql) ++ ")"
  | .isNull op => operation_to_sql op ++ " IS NULL"
  | .isNotNull op => operation_to_sql op ++ " IS NOT NULL"
  | .lesserEqual op1 op2 => operation_to_sql op1 ++ " <= " ++ operation_to_sql op2
  | .lesserThan op1 op2 => operation_to_sql op1 ++ " < " ++ operation_to_sql op2
  | .like op pattern =>
      operation_to_sql op ++ " LIKE " ++ column_or_value_to_sql pattern
  | .not cond => "NOT (" ++ condition_to_sql cond ++ ")"
  | .notEqual op1 op2 => operation_to_sql op1 ++ " != " ++ operation_to_sql op2
  | .notLike op pattern =>
      operation_to_sql op ++ " NOT LIKE " ++ column_or_value_to_sql pattern
  | .notIn op patterns =>
      operation_to_sql op ++ " NOT IN (" ++
        join ", " (patterns.map column_or_value_to_sql) ++ ")"
  | .or cond1 cond2 =>
      "(" ++ condition_to_sql cond1 ++ ") OR (" ++ condition_to_sql cond2 ++ ")"

/-! ## Statement model -/

/-- A select-list entry (`dynamic::SelectFrom::Field`): an operation with an
optional output alias. -/
structure Field where
  val : Operation
  as_ : Option String

/-- An ORDER BY entry: a column with a descending flag. -/
structure OrderByEntry where
  column : ColumnOrValue
  desc : Bool

/-- The GROUP BY clause payload. -/
structure GroupBy where
  columns : List ColumnOrValue

/-- The ORDER BY clause payload. -/
structure OrderBy where
  columns : List OrderByEntry

/-- The LIMIT clause payload. -/
structure Limit where
  val : Nat

mutual
/-- A SELECT statement (`dynamic::SelectFrom`). -/
inductive SelectFrom where
  | mk (fields : List Field) (table_or_query : TableOrQuery)
       (alias_ : Option String) (joins : Option (List Join))
       (where_ : Option Condition) (group_by : Option GroupBy)
       (order_by : Option OrderBy) (limit : Option Limit)

/-- A FROM source (`dynamic::SelectFrom::TableOrQueryType`): either a table
or a nested sub-select. -/
inductive TableOrQuery where
  | table (t : Table)
  | query (q : SelectFrom)

/-- One join clause (`dynamic::Join`). -/
inductive Join where
  | mk (how : String) (table_or_query : TableOrQuery) (alias_ : String)
       (on_ : Option Condition)
end

/-- Field accessor. -/
def SelectFrom.fields : SelectFrom → List Field
  | .mk f _ _ _ _ _ _ _ => f

/-- Field accessor. -/
def SelectFrom.table_or_query : SelectFrom → TableOrQuery
  | .mk _ t _ _ _ _ _ _ => t

/-- Field accessor. -/
def SelectFrom.alias_ : SelectFrom → Option String
  | .mk _ _ a _ _ _ _ _ => a

/-- Field accessor. -/
def SelectFrom.joins : SelectFrom → Option (List Join)
  | .mk _ _ _ j _ _ _ _ => j

/-- Field accessor. -/
def SelectFrom.where_ : SelectFrom → Option Condition
  | .mk _ _ _ _ w _ _ _ => w

/-- Field accessor. -/
def SelectFrom.group_by : SelectFrom → Option GroupBy
  | .mk _ _ _ _ _ g _ _ => g

/-- Field accessor. -/
def SelectFrom.order_by : SelectFrom → Option OrderBy
  | .mk _ _ _ _ _ _ o _ => o

/-- Field accessor. -/
def SelectFrom.limit : SelectFrom → Option Limit
  | .mk _ _ _ _ _ _ _ l => l

/-- Field accessor. -/
def Join.how : Join → String
  | .mk h _ _ _ => h

/-- Field accessor. -/
def Join.table_or_query : Join → TableOrQuery
  | .mk _ t _ _ => t

/-- Field accessor. -/
def Join.alias_ : Join → String
  | .mk _ _ a _ => a

/-- Field accessor. -/
def Join.on_ : Join → Option Condition
  | .mk _ _ _ o => o

/-- An INSERT statement (`dynamic::Insert`). -/
structure Insert where
  table : Table
  columns : List String
  or_replace : Bool
  constraints : List String

/-- One SET entry of an UPDATE statement. -/
structure UpdateSet where
  col : Column
  to_ : ColumnOrValue

/-- An UPDATE statement (`dynamic::Update`). -/
structure Update where
  table : Table
  sets : List UpdateSet
  where_ : Option Condition

/-- A DELETE statement (`dynamic::DeleteFrom`). -/
structure DeleteFrom where
  table : Table
  where_ : Option Condition

/-- A CREATE TABLE statement (`dynamic::CreateTable`). -/
structure CreateTable where
  table : Table
  columns : List Column
  if_not_exists : Bool

/-- A CREATE INDEX statement (`dynamic::CreateIndex`). -/
structure CreateIndex where
  name : String
  table : Table
  columns : List String
  unique : Bool
  if_not_exists : Bool
  where_ : Option Condition

/-- A CREATE ... AS statement (`dynamic::CreateAs`); `what` is kept as the
string `rfl::enum_to_string` would produce for the kind tag. -/
structure CreateAs where
  what : String
  or_replace : Bool
  if_not_exists : Bool
  table_or_view : Table
  query : SelectFrom

/-- A DROP statement (`dynamic::Drop`); `what` as in `CreateAs`. -/
structure Drop where
  what : String
  if_exists : Bool
  table : Table
  cascade : Bool

/-- A bulk-load WRITE statement (`dynamic::Write`). -/
structure Write where
  table : Table
  columns : List String

/-- A top-level statement (`dynamic::Statement`): one of the nine kinds. -/
inductive Statement where
  | createIndex (s : CreateIndex)
  | createTable (s : CreateTable)
  | createAs (s : CreateAs)
  | deleteFrom (s : DeleteFrom)
  | drop (s : Drop)
  | insert (s : Insert)
  | selectFrom (s : SelectFrom)
  | update (s : Update)
  | write (s : Write)

/-! ## Statement renderers -/

/-- The schema-qualified table reference emitted by every statement renderer:
`"schema".` when a schema is present, then the double-quoted table name. -/
def table_to_sql (t : Table) : String :=
  (match t.schema with
   | some s => wrap_in_quotes s ++ "."
   | none => "") ++ wrap_in_quotes t.name

/-- Source `field_to_str`. -/
def field_to_str (f : Field) : String :=
  operation_to_sql f.val ++
    (match f.as_ with
     | some a => " AS " ++ wrap_in_quotes a
     | none => "")

/-- Source `order_by_to_str` (the lambda inside `select_from_to_sql`). -/
def order_by_to_str (w : OrderByEntry) : String :=
  column_or_value_to_sql w.column ++ (if w.desc then " DESC" else "")

/-- The optional alias clause of `select_from_to_sql`. -/
def select_alias_to_sql : Option String → String
  | some a => " " ++ a
  | none => ""

/-- The optional WHERE clause shared by the statement renderers. -/
def where_to_sql : Option Condition → String
  | some c => " WHERE " ++ condition_to_sql c
  | none => ""

/-- The optional GROUP BY clause of `select_from_to_sql`. -/
def group_by_to_sql : Option GroupBy → String
  | some g => " GROUP BY " ++ join ", " (g.columns.map column_or_value_to_sql)
  | none => ""

/-- The optional ORDER BY clause of `select_from_to_sql`. -/
def order_by_to_sql : Option OrderBy → String
  | some o => " ORDER BY " ++ join ", " (o.columns.map order_by_to_str)
  | none => ""

/-- The optional LIMIT clause of `select_from_to_sql`. -/
def limit_to_sql : Option Limit → String
  | some l => " LIMIT " ++ Nat.repr l.val
  | none => ""

/-- The ON clause of `join_to_sql`: the rendered condition, or the
always-true predicate when absent. -/
def join_on_to_sql : Option Condition → String
  | some c => "ON " ++ condition_to_sql c
  | none => "ON 1 = 1"

mutual
/-- Source `select_from_to_sql`. -/
def select_from_to_sql : SelectFrom → String
  | .mk fields tq alias_ joins where_ group_by order_by limit =>
      "SELECT " ++ join ", " (fields.map field_to_str) ++
      " FROM " ++ table_or_query_to_sql tq ++
      select_alias_to_sql alias_ ++
      (match joins with
       | some js => " " ++ join " " (joins_to_sql js)
       | none => "") ++
      where_to_sql where_ ++
      group_by_to_sql group_by ++
      order_by_to_sql order_by ++
      limit_to_sql limit

/-- Source `table_or_query_to_sql`: a table renders schema-qualified, a
sub-select renders parenthesized. -/
def table_or_query_to_sql : TableOrQuery → String
  | .table t =>
      match t.schema with
      | some s => wrap_in_quotes s ++ "." ++ wrap_in_quotes t.name
      | none => wrap_in_quotes t.name
  | .query q => "(" ++ select_from_to_sql q ++ ")"

/-- Source `join_to_sql`. -/
def join_to_sql : Join → String
  | .mk how tq alias_ on_ =>
      to_upper (replace_all_char how '_' " ") ++ " " ++
      table_or_query_to_sql tq ++ " " ++ alias_ ++ " " ++
      join_on_to_sql on_

/-- Renders each join of a list (the `transform(join_to_sql)` pipeline). -/
def joins_to_sql : List Join → List String
  | [] => []
  | j :: js => join_to_sql j :: joins_to_sql js
end

/-- Source `to_placeholder` (the lambda inside `insert_to_sql`):
`"$" + std::to_string(i + 1)`. -/
def to_placeholder (i : Nat) : String := "$" ++ Nat.repr (i + 1)

/-- Source `as_excluded` (the lambda inside `insert_to_sql`):
`str + "=excluded." + str`, on the raw column name. -/
def as_excluded (s : String) : String := s ++ "=excluded." ++ s

/-- Source `insert_to_sql`. -/
def insert_to_sql (s : Insert) : String :=
  "INSERT INTO " ++ table_to_sql s.table ++
  " (" ++ join ", " (s.columns.map wrap_in_quotes) ++ ")" ++
  " VALUES (" ++ join ", " ((List.range s.columns.length).map to_placeholder) ++ ")" ++
  (if s.or_replace then
     " ON CONFLICT (" ++ join ", " s.constraints ++ ")" ++
     " DO UPDATE SET " ++ join ", " (s.columns.map as_excluded)
   else "") ++
  ";"

/-- Source `update_to_sql`. -/
def update_to_sql (s : Update) : String :=
  "UPDATE " ++ table_to_sql s.table ++ " SET " ++
  join ", " (s.sets.map fun st =>
    wrap_in_quotes st.col.name ++ " = " ++ column_or_value_to_sql st.to_) ++
  where_to_sql s.where_ ++
  ";"

/-- Source `delete_from_to_sql`. -/
def delete_from_to_sql (s : DeleteFrom) : String :=
  "DELETE FROM " ++ table_to_sql s.table ++
  where_to_sql s.where_ ++
  ";"

/-- Source `get_primary_keys`: the double-quoted names of the columns whose
properties mark them primary, in column order. -/
def get_primary_keys (s : CreateTable) : List String :=
  ((s.columns.filter fun c => c.type.properties.primary).map Column.name).map
    wrap_in_quotes

/-- Source `get_enum_mapping`: for an enum column, its rendered type name and
its values; the empty pair otherwise. -/
def get_enum_mapping (c : Column) : String × List String :=
  match c.type with
  | .enum name values p => (type_to_sql (.enum name values p), values)
  | _ => ("", [])

/-- Source `get_enum_types`. -/
def get_enum_types (s : CreateTable) : List (String × List String) :=
  (s.columns.filter fun c => c.type.isEnum).map get_enum_mapping

/-- One enum-type preamble of `create_table_to_sql`: the `CREATE TYPE`
command, wrapped in the duplicate-object-tolerant block when the statement
is `IF NOT EXISTS`. -/
def enum_preamble (if_not_exists : Bool) (e : String × List String) : String :=
  (if if_not_exists then "DO $$ BEGIN " else "") ++
  "CREATE TYPE " ++ e.1 ++ " AS ENUM (" ++
  join ", " (e.2.map wrap_in_single_quotes) ++ "); " ++
  (if if_not_exists then "EXCEPTION WHEN duplicate_object THEN NULL; END $$;" else "")

/-- Everything `create_table_to_sql` emits before the PRIMARY KEY clause. -/
def create_table_main (s : CreateTable) : String :=
  String.join ((get_enum_types s).map (enum_preamble s.if_not_exists)) ++
  "CREATE TABLE " ++
  (if s.if_not_exists then "IF NOT EXISTS " else "") ++
  table_to_sql s.table ++ " " ++
  "(" ++ join ", " (s.columns.map column_to_sql_definition)

/-- Source `create_table_to_sql`. -/
def create_table_to_sql (s : CreateTable) : String :=
  create_table_main s ++
  (if (get_primary_keys s).isEmpty then ""
   else ", PRIMARY KEY (" ++ join ", " (get_primary_keys s) ++ ")") ++
  ");"

/-- Everything `create_table_to_sql` emits after the optional
`IF NOT EXISTS` marker: the qualified table name, the column definitions,
the optional PRIMARY KEY clause and the terminator. -/
def create_table_tail (s : CreateTable) : String :=
  table_to_sql s.table ++ " " ++
  "(" ++ join ", " (s.columns.map column_to_sql_definition) ++
  (if (get_primary_keys s).isEmpty then ""
   else ", PRIMARY KEY (" ++ join ", " (get_primary_keys s) ++ ")") ++
  ");"

/-- Source `create_index_to_sql`. -/
def create_index_to_sql (s : CreateIndex) : String :=
  (if s.unique then "CREATE UNIQUE INDEX " else "CREATE INDEX ") ++
  (if s.if_not_exists then "IF NOT EXISTS " else "") ++
  "\"" ++ s.name ++ "\" " ++
  "ON " ++
  (match s.table.schema with
   | some sch => "\"" ++ sch ++ "\"."
   | none => "") ++
  "\"" ++ s.table.name ++ "\"" ++
  "(" ++ join ", " (s.columns.map wrap_in_quotes) ++ ")" ++
  where_to_sql s.where_ ++
  ";"

/-- Everything `create_as_to_sql` emits before the embedded select. -/
def create_as_head (s : CreateAs) : String :=
  "CREATE " ++
  (if s.or_replace then "OR REPLACE " else "") ++
  replace_all_char (to_upper s.what) '_' " " ++ " " ++
  (if s.if_not_exists then "IF NOT EXISTS " else "") ++
  table_to_sql s.table_or_view ++ " AS "

/-- Source `create_as_to_sql`: the head followed by the rendered select,
with no terminator appended. -/
def create_as_to_sql (s : CreateAs) : String :=
  create_as_head s ++ select_from_to_sql s.query

/-- Source `drop_to_sql`. -/
def drop_to_sql (s : Drop) : String :=
  "DROP " ++ replace_all_char (to_upper s.what) '_' " " ++ " " ++
  (if s.if_exists then "IF EXISTS " else "") ++
  table_to_sql s.table ++
  (if s.cascade then " CASCADE" else "") ++
  ";"

/-- Source `write_to_sql`: the COPY bulk-load command.  The control
characters of the source literal (`'\t'`, `'\e'`, `'\a'`) are the bytes
`0x09`, `0x1b` and `0x07`. -/
def write_to_sql (s : Write) : String :=
  "COPY " ++ wrap_in_quotes (s.table.schema.getD "public") ++ "." ++
  wrap_in_quotes s.table.name ++ "(" ++
  join ", " (s.columns.map wrap_in_quotes) ++
  ") FROM STDIN WITH DELIMITER '\t' NULL '\x1b' CSV QUOTE '\x07';"

/-- Source `to_sql_impl`: the dispatch entry point. -/
def to_sql_impl : Statement → String
  | .createIndex s => create_index_to_sql s
  | .createTable s => create_table_to_sql s
  | .createAs s => create_as_to_sql s
  | .deleteFrom s => delete_from_to_sql s
  | .drop s => drop_to_sql s
  | .insert s => insert_to_sql s
  | .selectFrom s => select_from_to_sql s
  | .update s => update_to_sql s
  | .write s => write_to_sql s

/-- The statement kinds whose rendering the spec terminates with a
semicolon; `to_sql.cpp` appends `";"` in each of these renderers. -/
def terminated_kind : Statement → Bool
  | .createIndex _ => true
  | .createTable _ => true
  | .deleteFrom _ => true
  | .drop _ => true
  | .insert _ => true
  | .update _ => true
  | .write _ => true
  | .createAs _ => false
  | .selectFrom _ => false

/-! ## Concrete example inputs (used to instantiate the theorems) -/

/-- A plain nullable text-column property set. -/
def props_plain : Properties := ⟨true, false, false, false, none⟩

/-- The statement `SELECT "x" FROM "u"`. -/
def sel_example : SelectFrom :=
  .mk [⟨.column ⟨"x", none, .text props_plain⟩, none⟩] (.table ⟨none, "u"⟩)
    none none none none none none

/-- The statement `CREATE VIEW "t" AS SELECT "x" FROM "u"`. -/
def createAs_example : CreateAs := ⟨"view", false, false, ⟨none, "t"⟩, sel_example⟩

/-- The upsert insert of the spec's example: columns `id`, `name`, conflict
target `id`. -/
def insert_example : Insert := ⟨⟨none, "t"⟩, ["id", "name"], true, ["id"]⟩

/-! ## Last-character toolkit

The terminator claims are about the final character of the rendered SQL, so
we analyse `lastChar` through the append structure of the renderers. -/

/-- The last character of a string, if any. -/
def lastChar (s : String) : Option Char := s.data.getLast?

theorem lastChar_append (a b : String) :
    lastChar (a ++ b) = (lastChar b).or (lastChar a) := by
  simp [lastChar]

theorem lastChar_append_end (a : String) {b : String} {d : Char}
    (h : lastChar b = some d) : lastChar (a ++ b) = some d := by
  rw [lastChar_append, h, Option.or_some]

theorem ne_semi_of_eq {s : String} {d : Char} (h : lastChar s = some d)
    (hd : d ≠ ';') : lastChar s ≠ some ';' := by
  rw [h]
  exact fun hc => hd (Option.some.inj hc)

theorem lastChar_append_ne {a b : String} {d : Char}
    (ha : lastChar a ≠ some d) (hb : lastChar b ≠ some d) :
    lastChar (a ++ b) ≠ some d := by
  rw [lastChar_append]
  cases h : lastChar b with
  | none => simpa using ha
  | some c => rw [h] at hb; simpa using hb

theorem lastChar_empty : lastChar "" = none := rfl

/-! ## Rendered numbers never end in a semicolon -/

theorem digitChar_ne_semi (n : Nat) : Nat.digitChar n ≠ ';' := by
  rcases Nat.lt_or_ge n 16 with h | h
  · interval_cases n <;> decide
  · unfold Nat.digitChar
    repeat rw [if_neg (by omega)]
    decide

theorem toDigitsCore_ne_semi (fuel : Nat) : ∀ (n : Nat) (ds : List Char),
    (∀ c ∈ ds, c ≠ ';') → ∀ c ∈ Nat.toDigitsCore 10 fuel n ds, c ≠ ';' := by
  induction fuel with
  | zero =>
    intro n ds h c hc
    exact h c hc
  | succ f ih =>
    intro n ds h c hc
    rw [show Nat.toDigitsCore 10 (f + 1) n ds =
        (if n / 10 = 0 then Nat.digitChar (n % 10) :: ds
         else Nat.toDigitsCore 10 f (n / 10) (Nat.digitChar (n % 10) :: ds)) from rfl] at hc
    split at hc
    · rcases List.mem_cons.mp hc with h1 | h1
      · exact h1 ▸ digitChar_ne_semi _
      · exact h c h1
    · refine ih _ _ ?_ c hc
      intro x hx
      rcases List.mem_cons.mp hx with h1 | h1
      · exact h1 ▸ digitChar_ne_semi _
      · exact h x h1

theorem natRepr_chars_ne_semi (n : Nat) : ∀ c ∈ (Nat.repr n).data, c ≠ ';' := by
  have hdata : (Nat.repr n).data = Nat.toDigitsCore 10 (n + 1) n [] := rfl
  rw [hdata]
  exact toDigitsCore_ne_semi _ _ _ (by simp)

theorem lastChar_natRepr (n : Nat) : lastChar (Nat.repr n) ≠ some ';' :=
  fun h => natRepr_chars_ne_semi n ';' (List.mem_of_getLast?_eq_some h) rfl

theorem lastChar_intRepr (i : Int) : lastChar (Int.repr i) ≠ some ';' := by
  cases i with
  | ofNat m => exact lastChar_natRepr m
  | negSucc m =>
    rw [show Int.repr (Int.negSucc m) = "-" ++ Nat.repr (m + 1) from rfl]
    exact lastChar_append_ne (by decide) (lastChar_natRepr _)

/-! ## No renderer output ends in a semicolon unless one is appended -/

theorem lastChar_wrap_in_quotes (n : String) :
    lastChar (wrap_in_quotes n) = some '"' :=
  lastChar_append_end _ rfl

theorem lastChar_join {sep : String} {l : List String}
    (hsep : lastChar sep ≠ some ';') (h : ∀ x ∈ l, lastChar x ≠ some ';') :
    lastChar (join sep l) ≠ some ';' := by
  induction l with
  | nil => rw [show join sep [] = "" from rfl, lastChar_empty]; exact nofun
  | cons x xs ih =>
    cases xs with
    | nil => simpa [join] using h x (by simp)
    | cons y ys =>
      rw [show join sep (x :: y :: ys) = x ++ sep ++ join sep (y :: ys) from rfl]
      exact lastChar_append_ne
        (lastChar_append_ne (h x (by simp)) hsep)
        (ih fun z hz => h z (List.mem_cons_of_mem _ hz))

theorem lastChar_colv (cv : ColumnOrValue) :
    lastChar (column_or_value_to_sql cv) ≠ some ';' := by
  cases cv with
  | col c =>
    cases h : c.alias_ with
    | none =>
      simp only [column_or_value_to_sql, h]
      exact ne_semi_of_eq (lastChar_wrap_in_quotes _) (by decide)
    | some a =>
      simp only [column_or_value_to_sql, h]
      exact ne_semi_of_eq (lastChar_append_end _ (lastChar_wrap_in_quotes _)) (by decide)
  | val v =>
    cases v with
    | str s =>
      exact ne_semi_of_eq (lastChar_append_end _ rfl) (by decide)
    | num n => exact lastChar_intRepr n
    | duration d =>
      exact ne_semi_of_eq (lastChar_append_end _ rfl) (by decide)
    | timestamp s =>
      exact ne_semi_of_eq (lastChar_append_end _ rfl) (by decide)

theorem lastChar_aggregation (a : Aggregation) :
    lastChar (aggregation_to_sql a) ≠ some ';' := by
  cases a with
  | avg v => exact ne_semi_of_eq (lastChar_append_end _ rfl) (by decide)
  | count v d =>
    simp only [aggregation_to_sql]
    exact ne_semi_of_eq (lastChar_append_end _ rfl) (by decide)
  | max v => exact ne_semi_of_eq (lastChar_append_end _ rfl) (by decide)
  | min v => exact ne_semi_of_eq (lastChar_append_end _ rfl) (by decide)
  | sum v => exact ne_semi_of_eq (lastChar_append_end _ rfl) (by decide)

theorem lastChar_operation (op : Operation) :
    lastChar (operation_to_sql op) ≠ some ';' := by
  cases op with
  | agg a => exact lastChar_aggregation a
  | column c => exact lastChar_colv (.col c)
  | value v => exact lastChar_colv (.val v)
  | datePlusDuration date durations =>
    simp only [operation_to_sql]
    refine lastChar_append_ne
      (ne_semi_of_eq (lastChar_append_end _ rfl) (by decide))
      (lastChar_join (by decide) ?_)
    intro x hx
    rcases List.mem_map.mp hx with ⟨d, _, rfl⟩
    exact lastChar_colv (.val (.duration d))
  | _ =>
    simp only [operation_to_sql]
    exact ne_semi_of_eq (lastChar_append_end _ rfl) (by decide)

theorem lastChar_condition (c : Condition) :
    lastChar (condition_to_sql c) ≠ some ';' := by
  cases c with
  | and c1 c2 => exact ne_semi_of_eq (lastChar_append_end _ rfl) (by decide)
  | or c1 c2 => exact ne_semi_of_eq (lastChar_append_end _ rfl) (by decide)
  | not c => exact ne_semi_of_eq (lastChar_append_end _ rfl) (by decide)
  | in_ op patterns => exact ne_semi_of_eq (lastChar_append_end _ rfl) (by decide)
  | notIn op patterns => exact ne_semi_of_eq (lastChar_append_end _ rfl) (by decide)
  | isNull op => exact ne_semi_of_eq (lastChar_append_end _ rfl) (by decide)
  | isNotNull op => exact ne_semi_of_eq (lastChar_append_end _ rfl) (by decide)
  | equal op1 op2 =>
    exact lastChar_append_ne
      (ne_semi_of_eq (lastChar_append_end _ rfl) (by decide)) (lastChar_operation op2)
  | notEqual op1 op2 =>
    exact lastChar_append_ne
      (ne_semi_of_eq (lastChar_append_end _ rfl) (by decide)) (lastChar_operation op2)
  | greaterEqual op1 op2 =>
    exact lastChar_append_ne
      (ne_semi_of_eq (lastChar_append_end _ rfl) (by decide)) (lastChar_operation op2)
  | greaterThan op1 op2 =>
    exact lastChar_append_ne
      (ne_semi_of_eq (lastChar_append_end _ rfl) (by decide)) (lastChar_operation op2)
  | lesserEqual op1 op2 =>
    exact lastChar_append_ne
      (ne_semi_of_eq (lastChar_append_end _ rfl) (by decide)) (lastChar_operation op2)
  | lesserThan op1 op2 =>
    exact lastChar_append_ne
      (ne_semi_of_eq (lastChar_append_end _ rfl) (by decide)) (lastChar_operation op2)
  | like op pattern =>
    exact lastChar_append_ne
      (ne_semi_of_eq (lastChar_append_end _ rfl) (by decide)) (lastChar_colv pattern)
  | notLike op pattern =>
    exact lastChar_append_ne
      (ne_semi_of_eq (lastChar_append_end _ rfl) (by decide)) (lastChar_colv pattern)

theorem lastChar_append_empty (a : String) : lastChar (a ++ "") = lastChar a := by
  rw [lastChar_append, lastChar_empty, Option.none_or]

theorem joins_to_sql_eq_map (js : List Join) : joins_to_sql js = js.map join_to_sql := by
  induction js with
  | nil => rfl
  | cons j rest ih => rw [show joins_to_sql (j :: rest) = join_to_sql j :: joins_to_sql rest from rfl, ih, List.map_cons]

theorem lastChar_field_to_str (f : Field) :
    lastChar (field_to_str f) ≠ some ';' := by
  rcases f with ⟨v, a⟩
  cases a with
  | none =>
    rw [show field_to_str ⟨v, none⟩ = operation_to_sql v ++ "" from rfl,
      lastChar_append_empty]
    exact lastChar_operation v
  | some al =>
    rw [show field_to_str ⟨v, some al⟩ =
        operation_to_sql v ++ (" AS " ++ wrap_in_quotes al) from rfl]
    exact ne_semi_of_eq
      (lastChar_append_end _ (lastChar_append_end _ (lastChar_wrap_in_quotes al)))
      (by decide)

theorem lastChar_order_by_to_str (w : OrderByEntry) :
    lastChar (order_by_to_str w) ≠ some ';' := by
  rcases w with ⟨c, d⟩
  cases d with
  | false =>
    rw [show order_by_to_str ⟨c, false⟩ = column_or_value_to_sql c ++ "" from rfl,
      lastChar_append_empty]
    exact lastChar_colv c
  | true =>
    rw [show order_by_to_str ⟨c, true⟩ = column_or_value_to_sql c ++ " DESC" from rfl]
    exact ne_semi_of_eq (lastChar_append_end _ rfl) (by decide)

theorem lastChar_table_or_query (tq : TableOrQuery) :
    lastChar (table_or_query_to_sql tq) ≠ some ';' := by
  cases tq with
  | table t =>
    cases h : t.schema with
    | none =>
      simp only [table_or_query_to_sql, h]
      exact ne_semi_of_eq (lastChar_wrap_in_quotes _) (by decide)
    | some sch =>
      simp only [table_or_query_to_sql, h]
      exact ne_semi_of_eq (lastChar_append_end _ (lastChar_wrap_in_quotes _)) (by decide)
  | query q =>
    simp only [table_or_query_to_sql]
    exact ne_semi_of_eq (lastChar_append_end _ rfl) (by decide)

theorem lastChar_join_on (onCond : Option Condition) :
    lastChar (join_on_to_sql onCond) ≠ some ';' := by
  cases onCond with
  | none => decide
  | some c =>
    rw [show join_on_to_sql (some c) = "ON " ++ condition_to_sql c from rfl]
    exact lastChar_append_ne (by decide) (lastChar_condition c)

theorem lastChar_join_to_sql (j : Join) :
    lastChar (join_to_sql j) ≠ some ';' := by
  rcases j with ⟨how, tq, al, onCond⟩
  rw [show join_to_sql (.mk how tq al onCond) =
      to_upper (replace_all_char how '_' " ") ++ " " ++
        table_or_query_to_sql tq ++ " " ++ al ++ " " ++
        join_on_to_sql onCond from rfl]
  exact lastChar_append_ne
    (ne_semi_of_eq (lastChar_append_end _ rfl) (by decide))
    (lastChar_join_on onCond)

theorem lastChar_select_alias (al : Option String)
    (h : ∀ a, al = some a → lastChar a ≠ some ';') :
    lastChar (select_alias_to_sql al) ≠ some ';' := by
  cases al with
  | none => rw [show select_alias_to_sql none = "" from rfl, lastChar_empty]; exact nofun
  | some a =>
    have ha := h a rfl
    rw [show select_alias_to_sql (some a) = " " ++ a from rfl, lastChar_append]
    cases hc : lastChar a with
    | none => rw [Option.none_or]; decide
    | some c => rw [hc] at ha; rw [Option.or_some]; exact ha

theorem lastChar_where (w : Option Condition) :
    lastChar (where_to_sql w) ≠ some ';' := by
  cases w with
  | none => rw [show where_to_sql none = "" from rfl, lastChar_empty]; exact nofun
  | some c =>
    rw [show where_to_sql (some c) = " WHERE " ++ condition_to_sql c from rfl]
    exact lastChar_append_ne (by decide) (lastChar_condition c)

theorem lastChar_group_by (g : Option GroupBy) :
    lastChar (group_by_to_sql g) ≠ some ';' := by
  cases g with
  | none => rw [show group_by_to_sql none = "" from rfl, lastChar_empty]; exact nofun
  | some g =>
    rw [show group_by_to_sql (some g) =
        " GROUP BY " ++ join ", " (g.columns.map column_or_value_to_sql) from rfl]
    refine lastChar_append_ne (by decide) (lastChar_join (by decide) ?_)
    intro x hx
    rcases List.mem_map.mp hx with ⟨c, _, rfl⟩
    exact lastChar_colv c

theorem lastChar_order_by (o : Option OrderBy) :
    lastChar (order_by_to_sql o) ≠ some ';' := by
  cases o with
  | none => rw [show order_by_to_sql none = "" from rfl, lastChar_empty]; exact nofun
  | some o =>
    rw [show order_by_to_sql (some o) =
        " ORDER BY " ++ join ", " (o.columns.map order_by_to_str) from rfl]
    refine lastChar_append_ne (by decide) (lastChar_join (by decide) ?_)
    intro x hx
    rcases List.mem_map.mp hx with ⟨w, _, rfl⟩
    exact lastChar_order_by_to_str w

theorem lastChar_limit (l : Option Limit) :
    lastChar (limit_to_sql l) ≠ some ';' := by
  cases l with
  | none => rw [show limit_to_sql none = "" from rfl, lastChar_empty]; exact nofun
  | some l =>
    rw [show limit_to_sql (some l) = " LIMIT " ++ Nat.repr l.val from rfl]
    exact lastChar_append_ne (by decide) (lastChar_natRepr l.val)

theorem select_from_ne_semi (s : SelectFrom)
    (h : ∀ a, s.alias_ = some a → lastChar a ≠ some ';') :
    lastChar (select_from_to_sql s) ≠ some ';' := by
  obtain ⟨fields, tq, al, joins, whereCond, groupBy, orderBy, limit⟩ := s
  simp only [SelectFrom.alias_] at h
  have hfrom : lastChar ("SELECT " ++ join ", " (fields.map field_to_str) ++
      " FROM " ++ table_or_query_to_sql tq) ≠ some ';' :=
    lastChar_append_ne
      (ne_semi_of_eq (lastChar_append_end _ rfl) (by decide))
      (lastChar_table_or_query tq)
  cases joins with
  | none =>
    rw [select_from_to_sql.eq_2]
    refine lastChar_append_ne (lastChar_append_ne (lastChar_append_ne
      (lastChar_append_ne (lastChar_append_ne (lastChar_append_ne
        hfrom (lastChar_select_alias al h)) ?_) (lastChar_where whereCond))
        (lastChar_group_by groupBy)) (lastChar_order_by orderBy))
      (lastChar_limit limit)
    rw [lastChar_empty]
    exact nofun
  | some js =>
    rw [select_from_to_sql.eq_1]
    refine lastChar_append_ne (lastChar_append_ne (lastChar_append_ne
      (lastChar_append_ne (lastChar_append_ne (lastChar_append_ne
        hfrom (lastChar_select_alias al h)) ?_) (lastChar_where whereCond))
        (lastChar_group_by groupBy)) (lastChar_order_by orderBy))
      (lastChar_limit limit)
    refine lastChar_append_ne (by decide) (lastChar_join (by decide) ?_)
    rw [joins_to_sql_eq_map]
    intro x hx
    rcases List.mem_map.mp hx with ⟨j, _, rfl⟩
    exact lastChar_join_to_sql j

/-! ## Claim theorems -/

/-- C1 (amended): `to_sql_impl` ends with `';'` for every Insert, Update,
DeleteFrom, CreateTable, CreateIndex, Drop and Write statement.  A
SelectFrom rendering never ends with `';'` (provided its alias, when
present, does not itself end with `';'`), and a CreateAs rendering ends
with the embedded select's rendering — no `';'` is appended, so under the
same proviso on the query's alias it does not end with `';'` either. -/
theorem statement_terminator :
    (∀ st : Statement, terminated_kind st = true →
      lastChar (to_sql_impl st) = some ';') ∧
    (∀ s : SelectFrom, (∀ a, s.alias_ = some a → lastChar a ≠ some ';') →
      lastChar (to_sql_impl (.selectFrom s)) ≠ some ';') ∧
    (∀ c : CreateAs,
      to_sql_impl (.createAs c) = create_as_head c ++ select_from_to_sql c.query ∧
      ((∀ a, c.query.alias_ = some a → lastChar a ≠ some ';') →
        lastChar (to_sql_impl (.createAs c)) ≠ some ';')) := by
  refine ⟨?term, ?sel, ?cas⟩
  case term =>
    intro st h
    cases st with
    | createIndex s => exact lastChar_append_end _ rfl
    | createTable s => exact lastChar_append_end _ rfl
    | deleteFrom s => exact lastChar_append_end _ rfl
    | drop s => exact lastChar_append_end _ rfl
    | insert s => exact lastChar_append_end _ rfl
    | update s => exact lastChar_append_end _ rfl
    | write s => exact lastChar_append_end _ rfl
    | selectFrom s => exact absurd h (by simp [terminated_kind])
    | createAs s => exact absurd h (by simp [terminated_kind])
  case sel =>
    intro s h
    exact select_from_ne_semi s h
  case cas =>
    intro c
    refine ⟨rfl, fun h => ?_⟩
    show lastChar (create_as_head c ++ select_from_to_sql c.query) ≠ some ';'
    exact lastChar_append_ne
      (ne_semi_of_eq (lastChar_append_end _ rfl) (by decide))
      (select_from_ne_semi c.query h)

/-- C1 counterexample: the concrete CreateAs statement
`CREATE VIEW "t" AS SELECT "x" FROM "u"` is a DML/DDL statement in the
claim's list, yet its rendering does not end with `';'` — the claim as
stated is false for CreateAs. -/
theorem statement_terminator_counterexample :
    to_sql_impl (.createAs createAs_example) =
      "CREATE VIEW \"t\" AS SELECT \"x\" FROM \"u\"" ∧
    lastChar (to_sql_impl (.createAs createAs_example)) ≠ some ';' := by
  constructor
  · decide
  · decide

/-- Witness for C1: the amended theorem evaluated at concrete inputs. -/
theorem statement_terminator_witness :
    lastChar (to_sql_impl (.insert insert_example)) = some ';' ∧
    lastChar (to_sql_impl (.selectFrom sel_example)) ≠ some ';' := by
  constructor
  · exact statement_terminator.1 (.insert insert_example) rfl
  · exact statement_terminator.2.1 sel_example (fun a ha => by
      rw [show sel_example.alias_ = none from rfl] at ha
      exact Option.noConfusion ha)

set_option maxRecDepth 8192 in
/-- C2 counterexample: for the upsert insert on columns `id`, `name` with
conflict target `id`, the rendered statement does not contain the
double-quoted conflict clause the claim demands — the conflict-target
column and the `DO UPDATE SET` references are emitted without quotes. -/
theorem upsert_quoting_counterexample :
    ¬ ("ON CONFLICT (\"id\") DO UPDATE SET \"id\"=excluded.\"id\", \"name\"=excluded.\"name\"").data <:+:
      (insert_to_sql insert_example).data := by decide

/-- C2 (amended): for every upsert insert the suffix is
`ON CONFLICT (<raw constraints>) DO UPDATE SET <col>=excluded.<col>, …;`
with the conflict-target columns and the `DO UPDATE SET` references
emitted verbatim, without double quotes (unlike the inserted-column list);
on the spec's example the output is
`INSERT INTO "t" ("id", "name") VALUES ($1, $2) ON CONFLICT (id) DO
UPDATE SET id=excluded.id, name=excluded.name;`. -/
theorem upsert_unquoted (s : Insert) (h : s.or_replace = true) :
    (∃ front, insert_to_sql s =
      front ++ " ON CONFLICT (" ++ join ", " s.constraints ++ ")" ++
        " DO UPDATE SET " ++ join ", " (s.columns.map as_excluded) ++ ";") ∧
    insert_to_sql insert_example =
      "INSERT INTO \"t\" (\"id\", \"name\") VALUES ($1, $2) ON CONFLICT (id) DO UPDATE SET id=excluded.id, name=excluded.name;" ∧
    as_excluded "id" = "id=excluded.id" := by
  refine ⟨?dec, by decide, rfl⟩
  refine ⟨"INSERT INTO " ++ table_to_sql s.table ++
    " (" ++ join ", " (s.columns.map wrap_in_quotes) ++ ")" ++
    " VALUES (" ++ join ", " ((List.range s.columns.length).map to_placeholder) ++ ")", ?_⟩
  simp only [insert_to_sql, h, if_true, String.append_assoc]

/-- Witness for C2: the amended theorem evaluated at the spec's example. -/
theorem upsert_unquoted_witness :
    insert_to_sql insert_example =
      "INSERT INTO \"t\" (\"id\", \"name\") VALUES ($1, $2) ON CONFLICT (id) DO UPDATE SET id=excluded.id, name=excluded.name;" :=
  (upsert_unquoted insert_example rfl).2.1

/-- C3: every INSERT renders a VALUES clause holding exactly the
placeholders `$1 … $n` for its `n` columns, in increasing order; the
`k`-th placeholder (1-based) is `$k`, and the placeholder list depends
only on the number of columns, not on their names. -/
theorem insert_placeholders (s : Insert) :
    (∃ front tail_, insert_to_sql s =
      front ++ " VALUES (" ++
        join ", " ((List.range s.columns.length).map to_placeholder) ++ ")" ++ tail_) ∧
    (∀ k, k < s.columns.length →
      ((List.range s.columns.length).map to_placeholder)[k]? =
        some ("$" ++ Nat.repr (k + 1))) ∧
    (∀ t : Insert, t.columns.length = s.columns.length →
      (List.range t.columns.length).map to_placeholder =
        (List.range s.columns.length).map to_placeholder) := by
  refine ⟨?dec, ?idx, ?len⟩
  case dec =>
    refine ⟨"INSERT INTO " ++ table_to_sql s.table ++
      " (" ++ join ", " (s.columns.map wrap_in_quotes) ++ ")",
      (if s.or_replace then
        " ON CONFLICT (" ++ join ", " s.constraints ++ ")" ++
          " DO UPDATE SET " ++ join ", " (s.columns.map as_excluded)
       else "") ++ ";", ?_⟩
    simp only [insert_to_sql, String.append_assoc]
  case idx =>
    intro k hk
    rw [List.getElem?_map, List.getElem?_range hk]
    rfl
  case len =>
    intro t ht
    rw [ht]

/-- Witness for C3: the third placeholder of a three-column INSERT is `$3`. -/
theorem insert_placeholders_witness :
    ((List.range (Insert.mk ⟨none, "t"⟩ ["a", "b", "c"] false []).columns.length).map
        to_placeholder)[2]? = some ("$" ++ Nat.repr 3) :=
  (insert_placeholders (Insert.mk ⟨none, "t"⟩ ["a", "b", "c"] false [])).2.1 2 (by decide)

/-! ## Escaping lemmas (C4) -/

theorem quote_pair_data : ("''" : String).data = [Char.ofNat 39, Char.ofNat 39] := by
  decide

theorem escape_data (s : String) :
    (escape_single_quote s).data =
      replaceChars (Char.ofNat 39) [Char.ofNat 39, Char.ofNat 39] s.data := by
  show replaceChars (Char.ofNat 39) ("''").data s.data = _
  rw [quote_pair_data]

theorem replaceChars_qq_length (l : List Char) :
    (replaceChars (Char.ofNat 39) [Char.ofNat 39, Char.ofNat 39] l).length =
      l.length + l.count (Char.ofNat 39) := by
  induction l with
  | nil => rfl
  | cons d ds ih =>
    by_cases h : d = Char.ofNat 39 <;>
      simp [replaceChars, h, ih, List.count_cons] <;> omega

theorem replaceChars_qq_count (l : List Char) :
    (replaceChars (Char.ofNat 39) [Char.ofNat 39, Char.ofNat 39] l).count
        (Char.ofNat 39) = 2 * l.count (Char.ofNat 39) := by
  induction l with
  | nil => rfl
  | cons d ds ih =>
    by_cases h : d = Char.ofNat 39 <;>
      simp [replaceChars, h, ih, List.count_cons, List.count_append] <;> omega

/-- C4: a string literal renders as the single-quote-escaped text wrapped
in single quotes and nothing else; `O'Brien` renders as `'O''Brien'`; and
escaping is not idempotent — for any string holding a single quote,
escaping twice differs from escaping once. -/
theorem string_escaping :
    (∀ s : String, column_or_value_to_sql (.val (.str s)) =
      "'" ++ escape_single_quote s ++ "'") ∧
    column_or_value_to_sql (.val (.str "O'Brien")) = "'O''Brien'" ∧
    (∀ s : String, Char.ofNat 39 ∈ s.data →
      escape_single_quote (escape_single_quote s) ≠ escape_single_quote s) := by
  refine ⟨fun s => rfl, by decide, ?_⟩
  intro s hs heq
  have hlen := congrArg (fun t : String => t.data.length) heq
  simp only [escape_data] at hlen
  simp only [replaceChars_qq_length, replaceChars_qq_count] at hlen
  have hC : 0 < s.data.count (Char.ofNat 39) := List.count_pos_iff.mpr hs
  omega

/-- Witness for C4: re-escaping changes the already-escaped `O'Brien`. -/
theorem string_escaping_witness :
    escape_single_quote (escape_single_quote "O'Brien") ≠
      escape_single_quote "O'Brien" :=
  string_escaping.2.2 "O'Brien" (by decide)

/-- C5: every claimed `Type` alternative renders to exactly the documented
dialect keyword: the narrow integer kinds collapse to SMALLINT, the 32-bit
kinds to INTEGER, the 64-bit kinds to BIGINT, both float widths to
NUMERIC; Text and Unknown render TEXT, VarChar carries its length, JSON
renders JSONB, an Enum renders its own name and Dynamic passes its raw
type name through verbatim. -/
theorem type_rendering :
    (∀ p, type_to_sql (.int8 p) = "SMALLINT") ∧
    (∀ p, type_to_sql (.int16 p) = "SMALLINT") ∧
    (∀ p, type_to_sql (.uint8 p) = "SMALLINT") ∧
    (∀ p, type_to_sql (.uint16 p) = "SMALLINT") ∧
    (∀ p, type_to_sql (.int32 p) = "INTEGER") ∧
    (∀ p, type_to_sql (.uint32 p) = "INTEGER") ∧
    (∀ p, type_to_sql (.int64 p) = "BIGINT") ∧
    (∀ p, type_to_sql (.uint64 p) = "BIGINT") ∧
    (∀ p, type_to_sql (.float32 p) = "NUMERIC") ∧
    (∀ p, type_to_sql (.float64 p) = "NUMERIC") ∧
    (∀ p, type_to_sql (.text p) = "TEXT") ∧
    (∀ len p, type_to_sql (.varchar len p) = "VARCHAR(" ++ Nat.repr len ++ ")") ∧
    (∀ p, type_to_sql (.json p) = "JSONB") ∧
    (∀ name values p, type_to_sql (.enum name values p) = name) ∧
    (∀ type_name p, type_to_sql (.dynamic type_name p) = type_name) ∧
    (∀ p, type_to_sql (.unknown p) = "TEXT") :=
  ⟨fun _ => rfl, fun _ => rfl, fun _ => rfl, fun _ => rfl, fun _ => rfl,
   fun _ => rfl, fun _ => rfl, fun _ => rfl, fun _ => rfl, fun _ => rfl,
   fun _ => rfl, fun _ _ => rfl, fun _ => rfl, fun _ _ _ => rfl,
   fun _ _ => rfl, fun _ => rfl⟩

/-- C6: for a CREATE TABLE with at least one enum column, every enum
preamble appears before the `CREATE TABLE` text; with `if_not_exists`
each preamble is wrapped in the duplicate-object-tolerant
`DO $$ BEGIN … EXCEPTION WHEN duplicate_object THEN NULL; END $$;` block
and precedes the `CREATE TABLE IF NOT EXISTS` text; without it the bare
`CREATE TYPE` command is emitted with no wrapping block. -/
theorem create_table_enum_types (s : CreateTable)
    (h : ∃ c ∈ s.columns, c.type.isEnum = true) :
    (s.if_not_exists = true →
      create_table_to_sql s =
        String.join ((get_enum_types s).map fun e =>
          "DO $$ BEGIN " ++ "CREATE TYPE " ++ e.1 ++ " AS ENUM (" ++
            join ", " (e.2.map wrap_in_single_quotes) ++ "); " ++
            "EXCEPTION WHEN duplicate_object THEN NULL; END $$;") ++
        ("CREATE TABLE IF NOT EXISTS " ++ create_table_tail s)) ∧
    (s.if_not_exists = false →
      create_table_to_sql s =
        String.join ((get_enum_types s).map fun e =>
          "CREATE TYPE " ++ e.1 ++ " AS ENUM (" ++
            join ", " (e.2.map wrap_in_single_quotes) ++ "); ") ++
        ("CREATE TABLE " ++ create_table_tail s)) ∧
    get_enum_types s ≠ [] := by
  have hmerge : ∀ r : String,
      ("CREATE TABLE " : String) ++ ("IF NOT EXISTS " ++ r) =
        "CREATE TABLE IF NOT EXISTS " ++ r := by
    intro r
    rw [← String.append_assoc]
    rfl
  refine ⟨?ine, ?plain, ?ne⟩
  case ine =>
    intro ht
    have hfun : enum_preamble true = fun e : String × List String =>
        "DO $$ BEGIN " ++ "CREATE TYPE " ++ e.1 ++ " AS ENUM (" ++
          join ", " (e.2.map wrap_in_single_quotes) ++ "); " ++
          "EXCEPTION WHEN duplicate_object THEN NULL; END $$;" := by
      funext e
      simp [enum_preamble]
    simp only [create_table_to_sql, create_table_main, create_table_tail, ht,
      eq_self_iff_true, if_true, hfun, String.append_assoc]
    rw [hmerge]
  case plain =>
    intro hf
    have hfun : enum_preamble false = fun e : String × List String =>
        "CREATE TYPE " ++ e.1 ++ " AS ENUM (" ++
          join ", " (e.2.map wrap_in_single_quotes) ++ "); " := by
      funext e
      simp [enum_preamble, String.append_empty]
    simp only [create_table_to_sql, create_table_main, create_table_tail, hf,
      Bool.false_eq_true, if_false, hfun, String.append_assoc]
    rfl
  case ne =>
    obtain ⟨c, hc, henum⟩ := h
    simp only [get_enum_types, ne_eq, List.map_eq_nil_iff]
    intro hnil
    rw [List.filter_eq_nil_iff] at hnil
    exact hnil c hc henum

/-- Witness for C6: the single-enum-column table rendered with
`if_not_exists`. -/
theorem create_table_enum_types_witness :
    create_table_to_sql
        (CreateTable.mk ⟨none, "t"⟩
          [⟨"mood", none, .enum "mood_t" ["happy", "sad"] props_plain⟩] true) =
      String.join ((get_enum_types
          (CreateTable.mk ⟨none, "t"⟩
            [⟨"mood", none, .enum "mood_t" ["happy", "sad"] props_plain⟩] true)).map
        fun e =>
          "DO $$ BEGIN " ++ "CREATE TYPE " ++ e.1 ++ " AS ENUM (" ++
            join ", " (e.2.map wrap_in_single_quotes) ++ "); " ++
            "EXCEPTION WHEN duplicate_object THEN NULL; END $$;") ++
      ("CREATE TABLE IF NOT EXISTS " ++ create_table_tail
        (CreateTable.mk ⟨none, "t"⟩
          [⟨"mood", none, .enum "mood_t" ["happy", "sad"] props_plain⟩] true)) :=
  (create_table_enum_types _
    ⟨⟨"mood", none, .enum "mood_t" ["happy", "sad"] props_plain⟩,
      List.mem_singleton.mpr rfl, rfl⟩).1 rfl

/-- C7: `get_primary_keys` is exactly the double-quoted names of the
primary-marked columns in declaration order; the rendered CREATE TABLE is
the main part followed by the `, PRIMARY KEY (…)` clause exactly when that
list is non-empty; and the list is empty precisely when no column is
marked primary. -/
theorem create_table_primary_key (s : CreateTable) :
    get_primary_keys s =
      (s.columns.filter fun c => c.type.properties.primary).map
        (fun c => wrap_in_quotes c.name) ∧
    create_table_to_sql s =
      create_table_main s ++
        (if (get_primary_keys s).isEmpty then ""
         else ", PRIMARY KEY (" ++ join ", " (get_primary_keys s) ++ ")") ++ ");" ∧
    ((get_primary_keys s).isEmpty = true ↔
      ∀ c ∈ s.columns, c.type.properties.primary = false) := by
  refine ⟨?map, rfl, ?iff⟩
  case map =>
    simp only [get_primary_keys, List.map_map]
    rfl
  case iff =>
    simp only [get_primary_keys, List.isEmpty_iff, List.map_eq_nil_iff,
      List.filter_eq_nil_iff, Bool.not_eq_true]

/-- C8: AND renders as `(<cond1>) AND (<cond2>)` and OR as
`(<cond1>) OR (<cond2>)`, both children parenthesized unconditionally, so
the nested `And(And(a,b),c)` renders with doubled parentheses and is never
flattened. -/
theorem condition_parenthesization :
    (∀ c1 c2 : Condition, condition_to_sql (.and c1 c2) =
      "(" ++ condition_to_sql c1 ++ ") AND (" ++ condition_to_sql c2 ++ ")") ∧
    (∀ c1 c2 : Condition, condition_to_sql (.or c1 c2) =
      "(" ++ condition_to_sql c1 ++ ") OR (" ++ condition_to_sql c2 ++ ")") ∧
    (∀ a b c : Condition, condition_to_sql (.and (.and a b) c) =
      "((" ++ condition_to_sql a ++ ") AND (" ++ condition_to_sql b ++
        ")) AND (" ++ condition_to_sql c ++ ")") := by
  have h1 : ∀ r : String, ("(" : String) ++ ("(" ++ r) = "((" ++ r := by
    intro r
    rw [← String.append_assoc]
    rfl
  have h2 : ∀ r : String, (")" : String) ++ (") AND (" ++ r) = ")) AND (" ++ r := by
    intro r
    rw [← String.append_assoc]
    rfl
  refine ⟨fun c1 c2 => rfl, fun c1 c2 => rfl, ?_⟩
  intro a b c
  show "(" ++ ("(" ++ condition_to_sql a ++ ") AND (" ++ condition_to_sql b ++ ")") ++
      ") AND (" ++ condition_to_sql c ++ ")" = _
  simp only [String.append_assoc]
  rw [h1, h2]

/-- C9: the WRITE statement renders the COPY bulk-load command with the
schema-qualified table (schema `public` when unspecified), the
double-quoted column list, and the fixed framing bytes: delimiter `0x09`
(tab), NULL marker `0x1b` (ESC) and CSV quote marker `0x07` (BEL). -/
theorem write_copy_format (s : Write) :
    write_to_sql s =
      "COPY " ++ wrap_in_quotes (s.table.schema.getD "public") ++ "." ++
        wrap_in_quotes s.table.name ++ "(" ++
        join ", " (s.columns.map wrap_in_quotes) ++
        (") FROM STDIN WITH DELIMITER '" ++ String.singleton (Char.ofNat 9) ++
          "' NULL '" ++ String.singleton (Char.ofNat 27) ++
          "' CSV QUOTE '" ++ String.singleton (Char.ofNat 7) ++ "';") ∧
    (s.table.schema = none →
      write_to_sql s =
        "COPY " ++ wrap_in_quotes "public" ++ "." ++
          wrap_in_quotes s.table.name ++ "(" ++
          join ", " (s.columns.map wrap_in_quotes) ++
          (") FROM STDIN WITH DELIMITER '" ++ String.singleton (Char.ofNat 9) ++
            "' NULL '" ++ String.singleton (Char.ofNat 27) ++
            "' CSV QUOTE '" ++ String.singleton (Char.ofNat 7) ++ "';")) := by
  have hsuffix : ") FROM STDIN WITH DELIMITER '" ++ String.singleton (Char.ofNat 9) ++
      "' NULL '" ++ String.singleton (Char.ofNat 27) ++
      "' CSV QUOTE '" ++ String.singleton (Char.ofNat 7) ++ "';" =
      ") FROM STDIN WITH DELIMITER '\t' NULL '\x1b' CSV QUOTE '\x07';" := by
    decide
  have e1 : write_to_sql s =
      "COPY " ++ wrap_in_quotes (s.table.schema.getD "public") ++ "." ++
        wrap_in_quotes s.table.name ++ "(" ++
        join ", " (s.columns.map wrap_in_quotes) ++
        (") FROM STDIN WITH DELIMITER '" ++ String.singleton (Char.ofNat 9) ++
          "' NULL '" ++ String.singleton (Char.ofNat 27) ++
          "' CSV QUOTE '" ++ String.singleton (Char.ofNat 7) ++ "';") := by
    rw [hsuffix]
    rfl
  refine ⟨e1, fun h => ?_⟩
  rw [e1, h]
  rfl

/-- Witness for C9: the schema-defaulting branch at a concrete statement. -/
theorem write_copy_format_witness :
    write_to_sql ⟨⟨none, "t"⟩, ["a"]⟩ =
      "COPY " ++ wrap_in_quotes "public" ++ "." ++
        wrap_in_quotes "t" ++ "(" ++
        join ", " (["a"].map wrap_in_quotes) ++
        (") FROM STDIN WITH DELIMITER '" ++ String.singleton (Char.ofNat 9) ++
          "' NULL '" ++ String.singleton (Char.ofNat 27) ++
          "' CSV QUOTE '" ++ String.singleton (Char.ofNat 7) ++ "';") :=
  (write_copy_format ⟨⟨none, "t"⟩, ["a"]⟩).2 rfl

/-- C10: an alias is always emitted verbatim, never double-quoted — an
aliased column renders as `<alias>."<name>"` with only the column name
quoted, the select-statement alias is appended bare after the FROM
source, and the join alias is emitted bare between the join source and
the ON clause, unlike table, schema, column and index names. -/
theorem alias_never_quoted :
    (∀ (name a : String) (ty : Typ),
      column_or_value_to_sql (.col ⟨name, some a, ty⟩) =
        a ++ "." ++ wrap_in_quotes name) ∧
    (∀ (name : String) (ty : Typ),
      column_or_value_to_sql (.col ⟨name, none, ty⟩) = wrap_in_quotes name) ∧
    (∀ (al : Option String) (a : String), al = some a →
      select_alias_to_sql al = " " ++ a) ∧
    (∀ s : SelectFrom, ∃ rest, select_from_to_sql s =
      "SELECT " ++ join ", " (s.fields.map field_to_str) ++ " FROM " ++
        table_or_query_to_sql s.table_or_query ++
        select_alias_to_sql s.alias_ ++ rest) ∧
    (∀ j : Join, join_to_sql j =
      to_upper (replace_all_char j.how '_' " ") ++ " " ++
        table_or_query_to_sql j.table_or_query ++ " " ++ j.alias_ ++ " " ++
        join_on_to_sql j.on_) := by
  refine ⟨fun _ _ _ => rfl, fun _ _ => rfl, ?al, ?sel, ?jn⟩
  case al =>
    rintro al a rfl
    rfl
  case sel =>
    intro s
    obtain ⟨fields, tq, al, joins, whereCond, groupBy, orderBy, limit⟩ := s
    simp only [SelectFrom.fields, SelectFrom.table_or_query, SelectFrom.alias_]
    cases joins with
    | none =>
      refine ⟨"" ++ (where_to_sql whereCond ++ (group_by_to_sql groupBy ++
        (order_by_to_sql orderBy ++ limit_to_sql limit))), ?_⟩
      rw [select_from_to_sql.eq_2]
      simp only [String.append_assoc]
    | some js =>
      refine ⟨" " ++ (join " " (joins_to_sql js) ++ (where_to_sql whereCond ++
        (group_by_to_sql groupBy ++ (order_by_to_sql orderBy ++
          limit_to_sql limit)))), ?_⟩
      rw [select_from_to_sql.eq_1]
      simp only [String.append_assoc]
  case jn =>
    intro j
    obtain ⟨how, tq, al, onC⟩ := j
    simp only [Join.how, Join.table_or_query, Join.alias_, Join.on_]
    rw [join_to_sql.eq_1]

/-- Witness for C10: the alias clause of a concrete aliased select. -/
theorem alias_never_quoted_witness :
    select_alias_to_sql (some "p") = " " ++ "p" :=
  alias_never_quoted.2.2.1 (some "p") "p" rfl

end Pg
